import Mathlib

/-!
Shallow embedding of src/get_blogspot_linked_images.py.

The HTML tokenizer substrate (html.parser.HTMLParser, Python standard
library, not part of this repository) is abstracted as a stream of tag
events, exactly the interface the spec describes in section 4.2: a document
is the ordered list of tag-start and tag-end events the tokenizer reports.
The handlers of the two scanner classes, the pagination loop, the link
resolver and the downloader are translated from the source line by line.
Python exceptions (IndexError from indexing an empty list or popping an
empty stack, KeyError from a missing dictionary key) are modelled with
Except PyError; Python list truthiness is the isEmpty test.
-/

/-- Errors a scan or a pagination run can raise, mirroring the Python
exceptions the source can produce. -/
inductive PyError where
  | indexError : PyError
  | keyError (key : String) : PyError
deriving DecidableEq

/-- One event reported by the streaming tag tokenizer: a start tag with its
attribute list, or an end tag. -/
inductive TagEvent where
  | start (tag : String) (attrs : List (String × String)) : TagEvent
  | endtag (tag : String) : TagEvent
deriving DecidableEq

/-- Embedding of Python str.endswith: suffix test on the character
sequence. -/
def py_endswith (s suf : String) : Bool :=
  suf.data.isSuffixOf s.data

/-- Embedding of Python str.startswith: prefix test on the character
sequence. -/
def py_startswith (s pre : String) : Bool :=
  pre.data.isPrefixOf s.data

/-- Source lines 65-67. Note that the source returns the LIST of the four
boolean results of the comprehension, not their disjunction; the list is
never empty, so in a Python boolean context the result is always truthy. -/
def is_image_filename (string : String) : List Bool :=
  ["png", "gif", "jpg", "jpeg"].map (fun ext => py_endswith string ext)

/-- Source lines 71-72: all values whose key equals the searched key, in
order. -/
def find_key (list_kvpairs : List (String × String)) (search : String) : List String :=
  list_kvpairs.filterMap (fun kv => if kv.1 = search then some kv.2 else none)

/-- State of the ImageSearcher parser class (source lines 75-82): the
collected img sources. -/
structure ImageSearcher where
  image_sources : List String
deriving DecidableEq

/-- Source lines 79-82: on an img start tag the source appends src[0]
without checking that the list of src values is non-empty, so an img tag
with no src attribute raises IndexError. -/
def ImageSearcher.handle_starttag (self : ImageSearcher) (tag : String)
    (attrs : List (String × String)) : Except PyError ImageSearcher :=
  if tag = "img" then
    match find_key attrs "src" with
    | [] => .error .indexError
    | v :: _ => .ok ⟨self.image_sources ++ [v]⟩
  else .ok self

/-- Dispatch of one tag event to ImageSearcher; the class defines no
end-tag handler, so end tags are ignored by the HTMLParser default. -/
def ImageSearcher.step (self : ImageSearcher) : TagEvent → Except PyError ImageSearcher
  | .start tag attrs => self.handle_starttag tag attrs
  | .endtag _ => .ok self

/-- Feeding a document (its event stream) to ImageSearcher, stopping at the
first raised exception. -/
def ImageSearcher.feed (self : ImageSearcher) : List TagEvent → Except PyError ImageSearcher
  | [] => .ok self
  | e :: es =>
    match self.step e with
    | .error err => .error err
    | .ok s2 => s2.feed es

/-- Source lines 85-89: run ImageSearcher over a document and return its
collected image sources. -/
def images_in_html (events : List TagEvent) : Except PyError (List String) :=
  match ImageSearcher.feed ⟨[]⟩ events with
  | .error err => .error err
  | .ok p => .ok p.image_sources

/-- State of the ImageLinkSearcher parser class (source lines 98-115): the
stack of open anchor hrefs (top of stack first) and the collected output
hrefs. -/
structure ImageLinkSearcher where
  linkstack : List String
  images : List String
deriving DecidableEq

/-- Source lines 103-112: push the first href value of an opening anchor;
on an img tag, if the stack is non-empty, test the top href with
is_image_filename (whose list result is always truthy) and append it. -/
def ImageLinkSearcher.handle_starttag (self : ImageLinkSearcher) (tag : String)
    (attrs : List (String × String)) : ImageLinkSearcher :=
  let s1 :=
    if tag = "a" then
      match find_key attrs "href" with
      | [] => self
      | href :: _ => { self with linkstack := href :: self.linkstack }
    else self
  if tag = "img" then
    match s1.linkstack with
    | [] => s1
    | link :: _ =>
      if (is_image_filename link).isEmpty then s1
      else { s1 with images := s1.images ++ [link] }
  else s1

/-- Source lines 113-115: on a closing anchor the source pops the stack
unconditionally; Python list.pop on an empty list raises IndexError. -/
def ImageLinkSearcher.handle_endtag (self : ImageLinkSearcher) (tag : String) :
    Except PyError ImageLinkSearcher :=
  if tag = "a" then
    match self.linkstack with
    | [] => .error .indexError
    | _ :: rest => .ok { self with linkstack := rest }
  else .ok self

/-- Dispatch of one tag event to ImageLinkSearcher. -/
def ImageLinkSearcher.step (self : ImageLinkSearcher) : TagEvent → Except PyError ImageLinkSearcher
  | .start tag attrs => .ok (self.handle_starttag tag attrs)
  | .endtag tag => self.handle_endtag tag

/-- Feeding a document (its event stream) to ImageLinkSearcher, stopping at
the first raised exception. -/
def ImageLinkSearcher.feed (self : ImageLinkSearcher) : List TagEvent → Except PyError ImageLinkSearcher
  | [] => .ok self
  | e :: es =>
    match self.step e with
    | .error err => .error err
    | .ok s2 => s2.feed es

/-- Source lines 118-121: run ImageLinkSearcher over a document and return
its collected hrefs. -/
def find_link_images (events : List TagEvent) : Except PyError (List String) :=
  match ImageLinkSearcher.feed ⟨[], []⟩ events with
  | .error err => .error err
  | .ok p => .ok p.images

/-- An HTTP response as the link resolver sees it: the declared media type
and the body, the latter already tokenized to tag events. -/
structure HttpResponse where
  contentType : String
  body : List TagEvent
deriving DecidableEq

/-- Source lines 131-138: if the content type starts with the string
"image", return the url unchanged; otherwise scan the body and return the
first image source, where indexing an empty result raises IndexError. -/
def follow_image_embeds (url : String) (response : HttpResponse) : Except PyError String :=
  if py_startswith response.contentType "image" then .ok url
  else
    match images_in_html response.body with
    | .error err => .error err
    | .ok [] => .error .indexError
    | .ok (v :: _) => .ok v

/-- One page of the paged posts listing; a field is none when the JSON
response lacks that key. -/
structure Page (α : Type) where
  items : Option (List α)
  nextPageToken : Option String
deriving DecidableEq

/-- The while loop of source lines 53-61. The current response is data; the
list rest supplies, in order, the responses to the successive token-bearing
fetches (it is assumed to cover every fetch the loop performs; the loop
stops if the supply runs out, a model boundary no theorem relies on).
Looking up a missing nextPageToken raises KeyError, caught by line 60, so
the loop ends; looking up the missing items key of a LATER page also raises
KeyError inside the same try block, so it too silently ends the loop. -/
def get_all_posts_loop {α : Type} : Page α → List (Page α) → List α → List α
  | data, rest, items =>
    match data.nextPageToken with
    | none => items
    | some _ =>
      match rest with
      | [] => items
      | page :: rest2 =>
        match page.items with
        | none => items
        | some newItems => get_all_posts_loop page rest2 (items ++ newItems)

/-- Source lines 49-62: the items lookup on the FIRST page is outside the
try block, so a first page lacking items raises KeyError to the caller;
afterwards the loop accumulates the later pages. -/
def get_all_posts {α : Type} (first : Page α) (rest : List (Page α)) :
    Except PyError (List α) :=
  match first.items with
  | none => .error (.keyError "items")
  | some items => .ok (get_all_posts_loop first rest items)

/-- Embedding of Python str.rfind: highest index of the character, or -1
when absent. -/
def str_rfind (s : String) (c : Char) : Int :=
  match s.data.reverse.findIdx? (fun x => x == c) with
  | none => -1
  | some i => (s.data.length : Int) - 1 - (i : Int)

/-- Embedding of the Python slice s[i:] for a non-negative start index. -/
def py_drop (s : String) (i : Nat) : String :=
  ⟨s.data.drop i⟩

/-- Embedding of os.path.join for two components, posix semantics. -/
def os_path_join (directory name : String) : String :=
  if py_startswith name "/" then name
  else if directory = "" then name
  else if py_endswith directory "/" then directory ++ name
  else directory ++ "/" ++ name

/-- Observable outcome of a download: the path written, the bytes written,
and the returned byte count. -/
structure DownloadResult where
  outpath : String
  written : List Nat
  byteCount : Nat
deriving DecidableEq

/-- Source lines 152-161: the filename is the substring after the last
slash of the url (rfind yields -1 when there is no slash, so the substring
starts at index 0); the fetched bytes are written to the joined path and
their count is returned. -/
def download_url_to_directory (url : String) (directory : String) (data : List Nat) :
    DownloadResult :=
  let firstslash : Int := str_rfind url '/'
  let name : String := py_drop url (firstslash + 1).toNat
  { outpath := os_path_join directory name, written := data, byteCount := data.length }

/-- Modelled from the spec: the top-level token of a media type is the
segment before the first slash (spec section 3, classification rule). -/
def topLevelToken (s : String) : String :=
  ⟨s.data.takeWhile (fun c => c != '/')⟩

/-- Modelled from the spec: an href has an image-file extension when it
ends in one of png, gif, jpg, jpeg (case-sensitive suffix match). This is
what is_image_filename was evidently meant to compute. -/
def has_image_extension (s : String) : Bool :=
  ["png", "gif", "jpg", "jpeg"].any (fun ext => py_endswith s ext)

/-- A tag event that ImageLinkSearcher ignores completely: a start tag that
is neither an anchor nor an img, or an end tag that is not an anchor. -/
def neutralEvent : TagEvent → Bool
  | .start tag _ => tag != "a" && tag != "img"
  | .endtag tag => tag != "a"

/-- A start tag event for an img element. -/
def imgStart : TagEvent → Bool
  | .start tag _ => tag == "img"
  | .endtag _ => false

/-- Event block of one anchor element with the given href directly wrapping
exactly one img element with the given attributes. -/
def anchorImgBlock (href : String) (imgAttrs : List (String × String)) : List TagEvent :=
  [.start "a" [("href", href)], .start "img" imgAttrs, .endtag "a"]

/-- A document made of anchor-img blocks, each preceded by arbitrary lead
events and followed by a common tail. -/
def anchorImgDoc (blocks : List (List TagEvent × String × List (String × String)))
    (tail : List TagEvent) : List TagEvent :=
  (blocks.map (fun b => b.1 ++ anchorImgBlock b.2.1 b.2.2)).flatten ++ tail

/-- Well-formedness of the successive page responses for the pagination
loop: every page except the last carries a nextPageToken, the last does
not. -/
def chainOk {α : Type} : Page α → List (Page α) → Bool
  | p, [] => p.nextPageToken.isNone
  | p, q :: rest => p.nextPageToken.isSome && chainOk q rest

/-- The list returned by is_image_filename has one entry per extension, so
it is never empty: in a Python boolean context it is always truthy. -/
theorem is_image_filename_not_empty (s : String) : (is_image_filename s).isEmpty = false := rfl

/-- C1: the claim that an href not ending in an image extension is excluded
from the output fails on the code: is_image_filename returns a list of
booleans, which is always truthy, so the extension filter never filters.
On an anchor with href http://x/page.html (no image extension) wrapping an
img, the scanner still outputs that href. -/
theorem is_image_filename_always_truthy_bug :
    has_image_extension "http://x/page.html" = false ∧
    find_link_images [TagEvent.start "a" [("href", "http://x/page.html")],
      TagEvent.start "img" [("src", "t.png")], TagEvent.endtag "a"] =
      Except.ok ["http://x/page.html"] := by
  constructor
  · rfl
  · rfl

/-- Counterexample to C2: feeding a single closing anchor tag to the
scanner raises IndexError instead of completing without error. -/
theorem find_link_images_lone_endtag :
    find_link_images [TagEvent.endtag "a"] = Except.error PyError.indexError := rfl

/-- C2 amended: processing an anchor end tag while the anchor stack is
empty raises IndexError (list.pop on an empty Python list), rather than
being a no-op. -/
theorem handle_endtag_empty_raises (s : ImageLinkSearcher) (h : s.linkstack = []) :
    s.handle_endtag "a" = Except.error PyError.indexError := by
  simp [ImageLinkSearcher.handle_endtag, h]

/-- Evaluation of the C2 theorem at the initial scanner state. -/
theorem handle_endtag_empty_raises_witness :
    ImageLinkSearcher.handle_endtag ⟨[], []⟩ "a" = Except.error PyError.indexError :=
  handle_endtag_empty_raises ⟨[], []⟩ rfl

/-- Counterexample to C5: an img start tag with no attributes at all makes
images_in_html raise IndexError instead of ignoring the event. -/
theorem images_in_html_missing_src_raises :
    images_in_html [TagEvent.start "img" []] = Except.error PyError.indexError := rfl

/-- C5 amended: on an img start tag whose attribute list has no src value,
ImageSearcher indexes the empty list of src values and raises IndexError;
the event is not ignored. -/
theorem imageSearcher_missing_src_raises (s : ImageSearcher)
    (attrs : List (String × String)) (h : find_key attrs "src" = []) :
    s.handle_starttag "img" attrs = Except.error PyError.indexError := by
  simp [ImageSearcher.handle_starttag, h]

/-- Evaluation of the C5 theorem at the empty attribute list. -/
theorem imageSearcher_missing_src_raises_witness :
    ImageSearcher.handle_starttag ⟨[]⟩ "img" [] = Except.error PyError.indexError :=
  imageSearcher_missing_src_raises ⟨[]⟩ [] rfl

/-- ImageSearcher ignores every event that is not an img start tag, so a
document with no img start events leaves its state unchanged. -/
theorem imageSearcher_feed_no_img (es : List TagEvent) (s : ImageSearcher)
    (h : ∀ e ∈ es, imgStart e = false) : ImageSearcher.feed s es = Except.ok s := by
  induction es generalizing s with
  | nil => rfl
  | cons e es ih =>
    have he : imgStart e = false := h e (by simp)
    have hes : ∀ x ∈ es, imgStart x = false := fun x hx => h x (by simp [hx])
    cases e with
    | start tag attrs =>
      have hne : tag ≠ "img" := by
        intro hEq
        subst hEq
        simp [imgStart] at he
      simp [ImageSearcher.feed, ImageSearcher.step, ImageSearcher.handle_starttag, hne]
      exact ih s hes
    | endtag tag =>
      simp [ImageSearcher.feed, ImageSearcher.step]
      exact ih s hes

/-- Counterexample to C3: the media type imagery/png has top-level token
imagery, different from image, yet the resolver takes the image branch and
returns the url unchanged instead of scanning the body (which would have
produced http://x/b.png). -/
theorem follow_image_embeds_imagery_counterexample :
    topLevelToken "imagery/png" ≠ "image" ∧
    follow_image_embeds "http://x/a"
      ⟨"imagery/png", [TagEvent.start "img" [("src", "http://x/b.png")]]⟩ =
      Except.ok "http://x/a" := by
  constructor
  · decide
  · rfl

/-- C3 amended: the resolver classifies a response as an image, returning
the input url unchanged, iff the declared media type string starts with the
literal prefix image (Python startswith), not iff its segment before the
slash equals image. Stated behaviorally over bodies whose single img source
differs from the url, so the two branches are distinguishable. -/
theorem follow_image_embeds_startswith_iff (url ct v : String) (h : v ≠ url) :
    (follow_image_embeds url ⟨ct, [TagEvent.start "img" [("src", v)]]⟩ = Except.ok url
      ↔ py_startswith ct "image" = true) := by
  cases hc : py_startswith ct "image" with
  | true => simp [follow_image_embeds, hc]
  | false =>
    have hbody : images_in_html [TagEvent.start "img" [("src", v)]] = Except.ok [v] := rfl
    simp [follow_image_embeds, hc, hbody, h]

/-- Evaluation of the C3 theorem at the counterexample media type. -/
theorem follow_image_embeds_startswith_iff_witness :
    (follow_image_embeds "http://x/a"
      ⟨"imagery/png", [TagEvent.start "img" [("src", "http://x/b.png")]]⟩ =
      Except.ok "http://x/a"
      ↔ py_startswith "imagery/png" "image" = true) :=
  follow_image_embeds_startswith_iff "http://x/a" "imagery/png" "http://x/b.png" (by decide)

/-- C7: a response whose declared media type has top-level token image
makes the resolver return the input url unchanged, whatever the body. -/
theorem follow_image_embeds_image_unchanged (url : String) (r : HttpResponse)
    (h : topLevelToken r.contentType = "image") :
    follow_image_embeds url r = Except.ok url := by
  have hdata : r.contentType.data.takeWhile (fun c => c != '/') = "image".data :=
    congrArg String.data h
  have hpre : py_startswith r.contentType "image" = true := by
    unfold py_startswith
    rw [← hdata]
    simp only [List.isPrefixOf_iff_prefix]
    exact List.takeWhile_prefix _
  simp [follow_image_embeds, hpre]

/-- Evaluation of the C7 theorem at the concrete scenario of the spec:
content type image/jpeg on url http://x/a. -/
theorem follow_image_embeds_image_unchanged_witness :
    follow_image_embeds "http://x/a" ⟨"image/jpeg", []⟩ = Except.ok "http://x/a" :=
  follow_image_embeds_image_unchanged "http://x/a" ⟨"image/jpeg", []⟩ rfl

/-- C8: a document with zero img start events yields the empty source list
from the first-image scanner, and resolving a url whose response is
classified as non-image with such a body raises IndexError (no image
found) instead of returning a url. -/
theorem no_img_resolution_fails (url : String) (r : HttpResponse)
    (himg : ∀ e ∈ r.body, imgStart e = false)
    (hct : py_startswith r.contentType "image" = false) :
    images_in_html r.body = Except.ok [] ∧
    follow_image_embeds url r = Except.error PyError.indexError := by
  have hfeed := imageSearcher_feed_no_img r.body ⟨[]⟩ himg
  have h1 : images_in_html r.body = Except.ok [] := by
    simp [images_in_html, hfeed]
  exact ⟨h1, by simp [follow_image_embeds, hct, h1]⟩

/-- Evaluation of the C8 theorem on a small html-only body with content
type text/html. -/
theorem no_img_resolution_fails_witness :
    images_in_html [TagEvent.start "html" [], TagEvent.endtag "html"] = Except.ok [] ∧
    follow_image_embeds "http://x/a"
      ⟨"text/html", [TagEvent.start "html" [], TagEvent.endtag "html"]⟩ =
      Except.error PyError.indexError :=
  no_img_resolution_fails "http://x/a"
    ⟨"text/html", [TagEvent.start "html" [], TagEvent.endtag "html"]⟩
    (by decide) (by decide)

/-- Counterexample to C4: a second page fetched via a nextPageToken that
lacks the items field does not abort pagination; the KeyError is caught by
the loop and the items of the first page are returned as a partial
result. -/
theorem get_all_posts_swallows_missing_items :
    get_all_posts (Page.mk (some ["p1"]) (some "t") : Page String)
      [Page.mk (none : Option (List String)) none] = Except.ok ["p1"] := rfl

/-- C4 amended: a missing items field aborts pagination with a KeyError
only on the first page, whose lookup is outside the try block; on any page
fetched via a nextPageToken the KeyError is caught and pagination silently
stops, returning the items accumulated so far. -/
theorem get_all_posts_missing_items_split (α : Type) (i : List α) (t : String)
    (p : Page α) (rest : List (Page α)) (h : p.items = none) :
    get_all_posts (Page.mk (none : Option (List α)) (some t)) rest =
      Except.error (PyError.keyError "items") ∧
    get_all_posts (Page.mk (some i) (some t)) (p :: rest) = Except.ok i := by
  constructor
  · rfl
  · simp [get_all_posts, get_all_posts_loop, h]

/-- Evaluation of the C4 theorem at a one-item first page followed by a
page with no items field. -/
theorem get_all_posts_missing_items_split_witness :
    get_all_posts (Page.mk (none : Option (List String)) (some "t")) [] =
      Except.error (PyError.keyError "items") ∧
    get_all_posts (Page.mk (some ["p1"]) (some "t"))
      [Page.mk (none : Option (List String)) none] = Except.ok ["p1"] :=
  get_all_posts_missing_items_split String ["p1"] "t" (Page.mk none none) [] rfl

/-- The pagination loop appends, in order, the items of every supplied
later page when each page except the last carries a token and every page
carries items. -/
theorem get_all_posts_loop_concat (α : Type) :
    ∀ (rest : List (Page α)) (data : Page α) (acc : List α),
      chainOk data rest = true →
      (∀ p ∈ rest, p.items.isSome = true) →
      get_all_posts_loop data rest acc =
        acc ++ (rest.map (fun p => p.items.getD [])).flatten := by
  intro rest
  induction rest with
  | nil =>
    intro data acc hc _
    have hd : data.nextPageToken = none := by
      simpa [chainOk, Option.isNone_iff_eq_none] using hc
    simp [get_all_posts_loop, hd]
  | cons q rest ih =>
    intro data acc hc hi
    have hc1 : data.nextPageToken.isSome = true := by
      simp [chainOk] at hc
      exact hc.1
    have hc2 : chainOk q rest = true := by
      simp [chainOk] at hc
      exact hc.2
    obtain ⟨t, ht⟩ := Option.isSome_iff_exists.mp hc1
    have hq : q.items.isSome = true := hi q (by simp)
    obtain ⟨iq, hiq⟩ := Option.isSome_iff_exists.mp hq
    have hrest : ∀ p ∈ rest, p.items.isSome = true := fun p hp => hi p (by simp [hp])
    rw [get_all_posts_loop]
    simp only [ht, hiq]
    rw [ih q (acc ++ iq) hc2 hrest]
    simp [hiq, List.append_assoc]

/-- C9: when every page carries an items array and every page except the
last carries a nextPageToken, pagination returns exactly the concatenation
of the items arrays of the pages in page order. -/
theorem get_all_posts_concat (α : Type) (first : Page α) (rest : List (Page α))
    (hc : chainOk first rest = true)
    (hi : ∀ p ∈ first :: rest, p.items.isSome = true) :
    get_all_posts first rest =
      Except.ok (((first :: rest).map (fun p => p.items.getD [])).flatten) := by
  have h1 : first.items.isSome = true := hi first (by simp)
  obtain ⟨i1, hi1⟩ := Option.isSome_iff_exists.mp h1
  have hrest : ∀ p ∈ rest, p.items.isSome = true := fun p hp => hi p (by simp [hp])
  simp only [get_all_posts, hi1]
  rw [get_all_posts_loop_concat α rest first i1 hc hrest]
  simp [hi1]

/-- Evaluation of the C9 theorem at three concrete pages, the first two
carrying tokens and the last not. -/
theorem get_all_posts_concat_witness :
    get_all_posts (Page.mk (some ["a1", "a2"]) (some "t1"))
      [Page.mk (some ["b"]) (some "t2"), Page.mk (some ["c"]) (none : Option String)] =
      Except.ok ["a1", "a2", "b", "c"] :=
  get_all_posts_concat String (Page.mk (some ["a1", "a2"]) (some "t1"))
    [Page.mk (some ["b"]) (some "t2"), Page.mk (some ["c"]) none]
    (by decide) (by decide)

/-- Feeding a concatenation of event streams to ImageLinkSearcher runs the
first stream, then the second from the resulting state, unless the first
raised. -/
theorem imageLinkSearcher_feed_append (es1 es2 : List TagEvent) (s : ImageLinkSearcher) :
    ImageLinkSearcher.feed s (es1 ++ es2) =
      match ImageLinkSearcher.feed s es1 with
      | .error err => .error err
      | .ok s2 => ImageLinkSearcher.feed s2 es2 := by
  induction es1 generalizing s with
  | nil => rfl
  | cons e es ih =>
    cases h : ImageLinkSearcher.step s e with
    | error err => simp [ImageLinkSearcher.feed, h]
    | ok s2 => simp [ImageLinkSearcher.feed, h, ih s2]

/-- Events that are neither anchor nor img tags leave the ImageLinkSearcher
state unchanged. -/
theorem imageLinkSearcher_feed_neutral (es : List TagEvent) (s : ImageLinkSearcher)
    (h : ∀ e ∈ es, neutralEvent e = true) : ImageLinkSearcher.feed s es = Except.ok s := by
  induction es generalizing s with
  | nil => rfl
  | cons e es ih =>
    have he := h e (by simp)
    have hes : ∀ x ∈ es, neutralEvent x = true := fun x hx => h x (by simp [hx])
    cases e with
    | start tag attrs =>
      have h1 : tag ≠ "a" := by
        intro hEq
        subst hEq
        simp [neutralEvent] at he
      have h2 : tag ≠ "img" := by
        intro hEq
        subst hEq
        simp [neutralEvent] at he
      simp [ImageLinkSearcher.feed, ImageLinkSearcher.step,
        ImageLinkSearcher.handle_starttag, h1, h2]
      exact ih s hes
    | endtag tag =>
      have h1 : tag ≠ "a" := by
        intro hEq
        subst hEq
        simp [neutralEvent] at he
      simp [ImageLinkSearcher.feed, ImageLinkSearcher.step,
        ImageLinkSearcher.handle_endtag, h1]
      exact ih s hes

/-- Feeding one anchor-img block from a state with an empty stack records
the href of the block and returns to an empty stack. -/
theorem imageLinkSearcher_feed_block (imgs : List String) (href : String)
    (imgAttrs : List (String × String)) (es : List TagEvent) :
    ImageLinkSearcher.feed ⟨[], imgs⟩ (anchorImgBlock href imgAttrs ++ es) =
      ImageLinkSearcher.feed ⟨[], imgs ++ [href]⟩ es := rfl

/-- Feeding a whole anchor-img document records the hrefs of the blocks in
document order. -/
theorem anchorImgDoc_feed (blocks : List (List TagEvent × String × List (String × String))) :
    ∀ (tail : List TagEvent) (imgs : List String),
      (∀ b ∈ blocks, ∀ e ∈ b.1, neutralEvent e = true) →
      (∀ e ∈ tail, neutralEvent e = true) →
      ImageLinkSearcher.feed ⟨[], imgs⟩ (anchorImgDoc blocks tail) =
        Except.ok ⟨[], imgs ++ blocks.map (fun b => b.2.1)⟩ := by
  induction blocks with
  | nil =>
    intro tail imgs _ htail
    simp only [anchorImgDoc, List.map_nil, List.flatten_nil, List.nil_append,
      List.append_nil]
    exact imageLinkSearcher_feed_neutral tail ⟨[], imgs⟩ htail
  | cons b bs ih =>
    intro tail imgs hb htail
    have hlead : ∀ e ∈ b.1, neutralEvent e = true := hb b (by simp)
    have hbs : ∀ x ∈ bs, ∀ e ∈ x.1, neutralEvent e = true := fun x hx => hb x (by simp [hx])
    have hdoc : anchorImgDoc (b :: bs) tail =
        b.1 ++ (anchorImgBlock b.2.1 b.2.2 ++ anchorImgDoc bs tail) := by
      simp [anchorImgDoc, List.append_assoc]
    rw [hdoc, imageLinkSearcher_feed_append,
      imageLinkSearcher_feed_neutral b.1 ⟨[], imgs⟩ hlead]
    show ImageLinkSearcher.feed ⟨[], imgs⟩
      (anchorImgBlock b.2.1 b.2.2 ++ anchorImgDoc bs tail) = _
    rw [imageLinkSearcher_feed_block, ih tail (imgs ++ [b.2.1]) hbs htail]
    simp [List.append_assoc]

/-- C6: a document consisting of anchor elements with image-extension
hrefs, each directly wrapping exactly one img element, with arbitrary
unrelated events around them, makes the scanner output exactly the hrefs of
those anchors in document order (one output per anchor). -/
theorem find_link_images_anchor_blocks
    (blocks : List (List TagEvent × String × List (String × String)))
    (tail : List TagEvent)
    (hlead : ∀ b ∈ blocks, ∀ e ∈ b.1, neutralEvent e = true)
    (htail : ∀ e ∈ tail, neutralEvent e = true)
    (_hext : ∀ b ∈ blocks, has_image_extension b.2.1 = true) :
    find_link_images (anchorImgDoc blocks tail) =
      Except.ok (blocks.map (fun b => b.2.1)) := by
  have hfeed := anchorImgDoc_feed blocks tail [] hlead htail
  simp [find_link_images, hfeed]

/-- Evaluation of the C6 theorem at the concrete scenario of the spec: one
anchor with href http://x/c.gif wrapping one img. -/
theorem find_link_images_anchor_blocks_witness :
    find_link_images [TagEvent.start "a" [("href", "http://x/c.gif")],
      TagEvent.start "img" [("src", "thumb.png")], TagEvent.endtag "a"] =
      Except.ok ["http://x/c.gif"] :=
  find_link_images_anchor_blocks [([], "http://x/c.gif", [("src", "thumb.png")])] []
    (by decide) (by decide) (by decide)

/-- C10: when the url contains no slash, rfind returns -1, the slice starts
at index 0, and the derived filename is the whole url: the bytes are
written to the destination directory joined with the url itself and the
byte count of the data is returned. -/
theorem download_no_slash_filename (url directory : String) (data : List Nat)
    (h : ∀ c ∈ url.data, c ≠ '/') :
    download_url_to_directory url directory data =
      { outpath := os_path_join directory url, written := data,
        byteCount := data.length } := by
  have hfind : url.data.reverse.findIdx? (fun x => x == '/') = none := by
    rw [List.findIdx?_eq_none_iff]
    intro x hx
    simpa using h x (List.mem_reverse.mp hx)
  have hrfind : str_rfind url '/' = -1 := by
    simp [str_rfind, hfind]
  have hdrop : py_drop url 0 = url := by
    show String.mk (url.data.drop 0) = url
    rw [List.drop_zero]
  have h01 : ((-1 : Int) + 1).toNat = 0 := rfl
  simp [download_url_to_directory, hrfind, h01, hdrop]

/-- Evaluation of the C10 theorem at a slash-free url. -/
theorem download_no_slash_filename_witness :
    download_url_to_directory "abc" "d" [1, 2, 3] =
      { outpath := "d/abc", written := [1, 2, 3], byteCount := 3 } :=
  download_no_slash_filename "abc" "d" [1, 2, 3] (by decide)
